import Mathlib

/-!
Verification of the lipidomics molecular-identity and mass-matching engine
(`molecules_parser.py`, `isotopic_corrections.py`).

Conventions of the shallow embedding:
* Python floats are modelled as exact rationals (`ℚ`); decimal literals from the
  source become their exact rational values.
* Python `None`-able parameters become `Option` arguments; `raise ValueError`
  and a propagated `KeyError` become `Except PyError`.
* `pandas.DataFrame` reference tables become a list of column names (what
  `list(df)` yields) together with a list of typed rows.
* `numpy.isclose(a, b, atol=t)` keeps numpy's default relative tolerance
  `rtol = 1e-5`: it tests `|a - b| <= t + 1e-5 * |b|`.
* `scipy.stats.binom.pmf(k, n, p)` is the binomial probability mass function;
  for `p` outside `[0, 1]` scipy yields `nan`, modelled as `none`.
* Python regular-expression scanning (`re.findall`) is embedded as an explicit
  left-to-right scanner over `List Char`, trying the source pattern's
  alternatives in order at each position and advancing one character on
  failure, exactly as the `re` engine does.  The scanners recurse on a fuel
  argument initialised to the input length (always sufficient, as each step
  consumes at least one character) so that they stay kernel-reducible.
-/

namespace Lippy

-- Batteries seals the rational-number primitives; re-opening them lets ground
-- rational arithmetic evaluate inside `decide`.
attribute [local semireducible] Rat.add Rat.sub Rat.mul Rat.inv

/-- The error values raised by the embedded code: `ValueError` for missing or
malformed required arguments, `KeyError` for a failed dictionary lookup. -/
inductive PyError where
  | valueError : PyError
  | keyError : PyError
deriving DecidableEq

deriving instance DecidableEq for Except

/-- Absolute value on `ℚ`, written so that it kernel-reduces on literals. -/
def ratAbs (q : ℚ) : ℚ := if q < 0 then -q else q

/-- `numpy.isclose(a, b, rtol, atol)`: `|a - b| <= atol + rtol * |b|`
(default `rtol = 1e-5` when only `atol` is passed, as in the source). -/
def np_isclose (a b : ℚ) (rtol : ℚ) (atol : ℚ) : Bool :=
  decide (ratAbs (a - b) ≤ atol + rtol * ratAbs b)

/-- numpy's default relative tolerance `rtol = 1e-5`. -/
def np_rtol_default : ℚ := 1 / 100000

/-- One row of the reference mass/name table: the values of its `precursor`,
`fragment` and name columns. -/
structure RefRow where
  precursor : ℚ
  fragment : ℚ
  name : String
deriving DecidableEq

/-- A `pandas.DataFrame` reference table: its column names (`list(df)`) and its
rows. -/
structure MassNameList where
  columns : List String
  rows : List RefRow
deriving DecidableEq

/-- `get_name_for_mass_pair` from `molecules_parser.py`.

```python
def get_name_for_mass_pair(precursor=None, fragment=None, mass_name_list=None,
                           pm_tolerance=0.3, fm_tolerance=None, atol=True):
    if fm_tolerance is None:
        fm_tolerance = pm_tolerance
    if precursor is None or fragment is None or mass_name_list is None:
        raise ValueError(...)
    if 'precursor' not in list(mass_name_list) or 'fragment' not in list(mass_name_list) \
            or 'lipid_name' not in list(mass_name_list):
        raise ValueError(...)
    if atol:
        precursor_matches = np.isclose(df['precursor'], precursor, atol=pm_tolerance)
        fragment_matches  = np.isclose(df['fragment'],  fragment,  atol=fm_tolerance)
        return df[precursor_matches & fragment_matches]
    else:
        # NOTE: the source's else branch is byte-identical to the then branch
        precursor_matches = np.isclose(df['precursor'], precursor, atol=pm_tolerance)
        fragment_matches  = np.isclose(df['fragment'],  fragment,  atol=fm_tolerance)
        return df[precursor_matches & fragment_matches]
```
-/
def get_name_for_mass_pair (precursor fragment : Option ℚ)
    (mass_name_list : Option MassNameList) (pm_tolerance : ℚ)
    (fm_tolerance : Option ℚ) (atol : Bool) : Except PyError (List RefRow) :=
  let fm_tol := fm_tolerance.getD pm_tolerance
  match precursor, fragment, mass_name_list with
  | some p, some f, some mnl =>
    if ¬ ("precursor" ∈ mnl.columns) ∨ ¬ ("fragment" ∈ mnl.columns) ∨
        ¬ ("lipid_name" ∈ mnl.columns) then
      .error .valueError
    else if atol then
      .ok (mnl.rows.filter fun r =>
        np_isclose r.precursor p np_rtol_default pm_tolerance &&
        np_isclose r.fragment f np_rtol_default fm_tol)
    else
      .ok (mnl.rows.filter fun r =>
        np_isclose r.precursor p np_rtol_default pm_tolerance &&
        np_isclose r.fragment f np_rtol_default fm_tol)
  | _, _, _ => .error .valueError

/-- `scipy.stats.binom.pmf(k, n, p)`: the binomial probability mass function
`C(n, k) * p ^ k * (1 - p) ^ (n - k)`. For a probability argument outside
`[0, 1]` scipy returns `nan`, modelled here as `none`. -/
def binom_pmf (k n : ℕ) (p : ℚ) : Option ℚ :=
  if p < 0 ∨ 1 < p then none
  else some ((n.choose k : ℚ) * p ^ k * (1 - p) ^ (n - k))

/-- The dictionary built (and printed) inside the loop of
`get_isotope_distribution_from_natoms`: key `k_isotopes` runs over
`range(0, natoms + 1)` and maps to `binom.pmf(k_isotopes, natoms, abundance)`.
For negative `natoms` the Python range is empty. -/
def isotope_probabilities_dict (natoms : ℤ) (abundance : ℚ) :
    List (ℕ × Option ℚ) :=
  (List.range (natoms + 1).toNat).map fun k =>
    (k, binom_pmf k natoms.toNat abundance)

/-- `get_isotope_distribution_from_natoms` from `isotopic_corrections.py`.

```python
def get_isotope_distribution_from_natoms(natoms=None, isotope=None, abundance=None):
    if natoms is None or abundance is None:
        raise ValueError("Both 'natoms' and 'abundance' parameters are required!")
    n_isotopes_probabilities = dict()
    for k_isotopes in range(0, natoms + 1):
        n_isotopes_probabilities[k_isotopes] = binom.pmf(k_isotopes, natoms, abundance)
        print(n_isotopes_probabilities)
    # NOTE: the function body ends here, with no return statement: the dict is
    # printed but the function returns Python None.
```
The `isotope` parameter is accepted and ignored by the source.  The success
value is `Option (List (ℕ × Option ℚ))`: `none` is Python `None`, which is what
every successful call returns. -/
def get_isotope_distribution_from_natoms (natoms : Option ℤ)
    (isotope : Option String) (abundance : Option ℚ) :
    Except PyError (Option (List (ℕ × Option ℚ))) :=
  match natoms, abundance with
  | some n, some p =>
    let n_isotopes_probabilities := isotope_probabilities_dict n p
    -- the dict is printed inside the loop; the function falls off its end
    .ok none
  | _, _ => .error .valueError

/-- Python dictionary lookup `d[k]` over an association list (insertion order,
first match). -/
def dictLookup (d : List (String × ℚ)) (k : String) : Option ℚ :=
  (d.find? fun p => p.1 == k).map fun p => p.2

/-- The numeric value of a list of decimal digit characters, as Python `int`
reads the digit groups and tokens produced by the scanners below. -/
def digitsToNat (l : List Char) : ℕ :=
  l.foldl (fun a c => a * 10 + (c.toNat - '0'.toNat)) 0

/-- One step of the scan of `re.findall(r'([A-Z][a-z]*)(\d*)', formula)`: at
each position the pattern needs one uppercase letter, then greedily takes
lowercase letters (group 1 joins them to the uppercase letter: the symbol) and
decimal digits (group 2: the count, possibly empty); every other character is
skipped. -/
def formula_findall_go (fuel : ℕ) (l : List Char) :
    List (List Char × List Char) :=
  match fuel, l with
  | 0, _ => []
  | _ + 1, [] => []
  | fuel + 1, c :: rest =>
    if c.isUpper then
      let rest1 := rest.dropWhile fun ch => ch.isLower
      (c :: rest.takeWhile fun ch => ch.isLower, rest1.takeWhile Char.isDigit) ::
        formula_findall_go fuel (rest1.dropWhile Char.isDigit)
    else
      formula_findall_go fuel rest

/-- `re.findall(r'([A-Z][a-z]*)(\d*)', formula)` over the whole string. -/
def formula_findall (l : List Char) : List (List Char × List Char) :=
  formula_findall_go l.length l

/-- The summation loop of `get_mass_from_formula`: for each `(symbol, count)`
tuple, `data[symbol]` (a `KeyError` propagates) is added `int(count)` times
when the count group is nonempty, once when it is empty. -/
def formula_mass_loop (data : List (String × ℚ)) :
    List (List Char × List Char) → ℚ → Except PyError ℚ
  | [], mass_sum => .ok mass_sum
  | (sym, cnt) :: rest, mass_sum =>
    match dictLookup data (String.mk sym) with
    | none => .error .keyError
    | some m =>
      if cnt.isEmpty then formula_mass_loop data rest (mass_sum + m)
      else formula_mass_loop data rest (mass_sum + (digitsToNat cnt : ℚ) * m)

/-- `get_mass_from_formula` from `molecules_parser.py`.

```python
def get_mass_from_formula(formula=None, elements_mass_file=None):
    if formula is None or elements_mass_file is None:
        raise ValueError(...)
    mass_sum = 0
    with open(elements_mass_file) as json_data:
        data = json.load(json_data)
        for tup in re.findall(r'([A-Z][a-z]*)(\d*)', formula):
            if tup[1]:
                mass_sum = mass_sum + int(tup[1]) * data[tup[0]]
            else:
                mass_sum = mass_sum + data[tup[0]]
    return mass_sum
```
The JSON file's content is abstracted to the association list it decodes to. -/
def get_mass_from_formula (formula : Option String)
    (elements_mass_file : Option (List (String × ℚ))) : Except PyError ℚ :=
  match formula, elements_mass_file with
  | some fs, some data => formula_mass_loop data (formula_findall fs.data) 0
  | _, _ => .error .valueError

/-- `\w` of the name pattern, on the ASCII fragment relevant here: letters,
digits and the underscore. -/
def isWordChar (c : Char) : Bool := c.isAlphanum || c == '_'

/-- Whether an optional character is present and a decimal digit. -/
def optIsDigit (o : Option Char) : Bool :=
  match o with
  | some c => c.isDigit
  | none => false

/-- Whether an optional character is present and equal to `c`. -/
def optEq (o : Option Char) (c : Char) : Bool :=
  match o with
  | some x => x == c
  | none => false

/-- The third alternative of the name pattern,
`\(\d:\d\,\d:\d\,\d:\d\)`, anchored at the start of `l`: thirteen characters
`(d:d,d:d,d:d)` with single digits. -/
def matches_triple (l : List Char) : Bool :=
  optEq l[0]? '(' && optIsDigit l[1]? && optEq l[2]? ':' && optIsDigit l[3]? &&
  optEq l[4]? ',' && optIsDigit l[5]? && optEq l[6]? ':' && optIsDigit l[7]? &&
  optEq l[8]? ',' && optIsDigit l[9]? && optEq l[10]? ':' && optIsDigit l[11]? &&
  optEq l[12]? ')'

/-- One step of the scan of
`re.findall(r'\w+|\d:\d|\(\d:\d\,\d:\d\,\d:\d\)', name)`: at each position the
engine first tries `\w+` (greedy, so a maximal word-character run); the `\d:\d`
alternative can never fire, because its first character is a digit and hence a
word character, so `\w+` would already have matched; then the parenthesised
triple; otherwise the position is skipped. -/
def findall_go (fuel : ℕ) (l : List Char) : List (List Char) :=
  match fuel, l with
  | 0, _ => []
  | _ + 1, [] => []
  | fuel + 1, c :: rest =>
    if isWordChar c then
      (c :: rest.takeWhile isWordChar) ::
        findall_go fuel (rest.dropWhile isWordChar)
    else if matches_triple (c :: rest) then
      ((c :: rest).take 13) :: findall_go fuel ((c :: rest).drop 13)
    else
      findall_go fuel rest

/-- `re.findall(r'\w+|\d:\d|\(\d:\d\,\d:\d\,\d:\d\)', name)` over the whole
string. -/
def findall_tokens (l : List Char) : List (List Char) :=
  findall_go l.length l

/-- `parse_lipid_name` from `molecules_parser.py`.

```python
def parse_lipid_name(name=None):
    if name is None:
        raise ValueError("The 'name' parameter must be specified!")
    parsed = re.findall(r'\w+|\d:\d|\(\d:\d\,\d:\d\,\d:\d\)', name)
    return parsed
```
-/
def parse_lipid_name (name : Option String) : Except PyError (List String) :=
  match name with
  | none => .error .valueError
  | some s => .ok ((findall_tokens s.data).map fun cs => String.mk cs)

/-- The token list `parse_lipid_name(name)` yields for a present `name`. -/
def parsed_name_tokens (nm : String) : List String :=
  (findall_tokens nm.data).map fun cs => String.mk cs

/-- Python `int()` applied to a float: truncation toward zero. -/
def py_int (q : ℚ) : ℤ := q.num.tdiv q.den

/-- Python `int(token)` for a `\w+` token of the name scan: an all-digit token
parses to its decimal value; any other such token raises `ValueError` (caught
by the enclosing `except` of `get_mass_from_name`).  Sign characters and
whitespace cannot occur inside a `\w+` token; digit groups joined by
underscores (which Python's `int` would also accept) never arise in the names
considered here. -/
def str_to_nat (s : String) : Option ℕ :=
  if s.data ≠ [] ∧ s.data.all Char.isDigit = true then some (digitsToNat s.data)
  else none

/-- The `try` block of `get_mass_from_name`: evaluate
`head_group_mass_dict[parsed[0]] + elements_mass_dict['C'] * int(parsed[1])
+ (int(parsed[1]) * 2 + 1) * int(elements_mass_dict['H'])
- (int(parsed[2]) * 2) * int(elements_mass_dict['H'])`.
`none` is any raised exception (bad index, missing key, non-numeric token) —
they are all caught alike.  Note the source truncates the hydrogen mass with
`int(...)` but uses the carbon mass untruncated. -/
def name_mass_attempt (nm : String) (emd hgd : List (String × ℚ)) : Option ℚ :=
  (parsed_name_tokens nm)[0]?.bind fun tok0 =>
  (parsed_name_tokens nm)[1]?.bind fun tok1 =>
  (parsed_name_tokens nm)[2]?.bind fun tok2 =>
  (dictLookup hgd tok0).bind fun hg =>
  (dictLookup emd "C").bind fun cMass =>
  (dictLookup emd "H").bind fun hMass =>
  (str_to_nat tok1).bind fun ncarbons =>
  (str_to_nat tok2).bind fun ndb =>
  some (hg + cMass * (ncarbons : ℚ) +
    ((ncarbons : ℚ) * 2 + 1) * (py_int hMass : ℚ) -
    ((ndb : ℚ) * 2) * (py_int hMass : ℚ))

/-- `get_mass_from_name` from `molecules_parser.py`.

```python
def get_mass_from_name(name=None, elements_mass_dict=None, head_group_mass_dict=None):
    if name is None or elements_mass_dict is None or head_group_mass_dict is None:
        raise ValueError(...)
    parsed = parse_lipid_name(name)
    mass = 0
    try:
        mass = (head_group_mass_dict[parsed[0]] + (elements_mass_dict['C'] * int(parsed[1]))
                + (int(parsed[1]) * 2 + 1) * int(elements_mass_dict['H'])
                - (int(parsed[2]) * 2) * int(elements_mass_dict['H']))
    except:
        print ("Some elements and head group not found")
    return mass
```
The bare `except` swallows every failure and `mass` keeps its initial value 0.
-/
def get_mass_from_name (name : Option String)
    (elements_mass_dict head_group_mass_dict : Option (List (String × ℚ))) :
    Except PyError ℚ :=
  match name, elements_mass_dict, head_group_mass_dict with
  | some nm, some emd, some hgd =>
    match name_mass_attempt nm emd hgd with
    | some mass => .ok mass
    | none => .ok 0
  | _, _, _ => .error .valueError

/-- `get_name_from_carbons_double_bonds` from `molecules_parser.py`:
`"%s|%s:%s|" % (group, ncarbons, ndouble_bonds)`, with `ndouble_bonds`
defaulting to 0 when unset; `ValueError` when `group` or `ncarbons` is unset.
-/
def get_name_from_carbons_double_bonds (group : Option String)
    (ncarbons : Option ℤ) (ndouble_bonds : Option ℤ) :
    Except PyError String :=
  match group, ncarbons with
  | some g, some c =>
    match ndouble_bonds with
    | none => .ok (g ++ "|" ++ toString c ++ ":" ++ toString (0 : ℤ) ++ "|")
    | some d => .ok (g ++ "|" ++ toString c ++ ":" ++ toString d ++ "|")
  | _, _ => .error .valueError

/-- `get_name_from_double_chains` from `molecules_parser.py`: compose the
totals name from the pairwise sums, then append
`"(%d:%d~%d:%d)" % (chain_1[0], chain_1[1], chain_2[0], chain_2[1])`. -/
def get_name_from_double_chains (group : Option String)
    (chain_1 chain_2 : ℤ × ℤ) : Except PyError String :=
  match group with
  | none => .error .valueError
  | some g =>
    match get_name_from_carbons_double_bonds (some g)
        (some (chain_1.1 + chain_2.1)) (some (chain_1.2 + chain_2.2)) with
    | .error e => .error e
    | .ok base =>
      .ok (base ++ "(" ++ toString chain_1.1 ++ ":" ++ toString chain_1.2 ++
        "~" ++ toString chain_2.1 ++ ":" ++ toString chain_2.2 ++ ")")

/-! ## Helper lemmas -/

theorem ratAbs_eq_abs (q : ℚ) : ratAbs q = |q| := by
  unfold ratAbs
  by_cases h : q < 0
  · simp [h, abs_of_neg h]
  · simp [h, abs_of_nonneg (le_of_not_lt h)]

theorem dropWhile_len_le (p : Char → Bool) (l : List Char) :
    (l.dropWhile p).length ≤ l.length :=
  List.Sublist.length_le (List.dropWhile_sublist _)

theorem findall_go_fuel_irrel : ∀ (f1 : ℕ) (l : List Char) (f2 : ℕ),
    l.length ≤ f1 → l.length ≤ f2 → findall_go f1 l = findall_go f2 l := by
  intro f1
  induction f1 with
  | zero =>
    intro l f2 h1 _
    rw [Nat.le_zero, List.length_eq_zero] at h1
    subst h1
    cases f2 <;> rfl
  | succ f1 ih =>
    intro l f2 h1 h2
    cases l with
    | nil => cases f2 <;> rfl
    | cons c rest =>
      cases f2 with
      | zero => exact absurd h2 (by simp)
      | succ f2 =>
        simp only [List.length_cons, Nat.succ_le_succ_iff] at h1 h2
        show findall_go (f1 + 1) (c :: rest) = findall_go (f2 + 1) (c :: rest)
        simp only [findall_go]
        by_cases hw : isWordChar c
        · simp only [hw, if_true]
          rw [ih (rest.dropWhile isWordChar) f2
            (le_trans (dropWhile_len_le _ _) h1)
            (le_trans (dropWhile_len_le _ _) h2)]
        · by_cases ht : matches_triple (c :: rest)
          · have hlen : ((c :: rest).drop 13).length ≤ rest.length := by
              rw [List.drop_succ_cons, List.length_drop]
              exact Nat.sub_le _ _
            simp only [hw, ht, if_true, if_false, Bool.false_eq_true]
            rw [ih ((c :: rest).drop 13) f2 (le_trans hlen h1)
              (le_trans hlen h2)]
          · simp only [hw, ht, if_false, Bool.false_eq_true]
            exact ih _ _ h1 h2

theorem findall_tokens_word (c : Char) (rest : List Char)
    (h : isWordChar c = true) :
    findall_tokens (c :: rest) =
      (c :: rest.takeWhile isWordChar) ::
        findall_tokens (rest.dropWhile isWordChar) := by
  show findall_go (rest.length + 1) (c :: rest) = _
  simp only [findall_go, h, if_true]
  exact congrArg _ (findall_go_fuel_irrel _ _ _
    (dropWhile_len_le _ _) (le_refl _))

theorem findall_tokens_skip (c : Char) (rest : List Char)
    (h1 : isWordChar c = false) (h2 : matches_triple (c :: rest) = false) :
    findall_tokens (c :: rest) = findall_tokens rest := by
  show findall_go (rest.length + 1) (c :: rest) = _
  simp only [findall_go, h1, h2, if_false, Bool.false_eq_true]
  rfl

theorem takeWhile_run (p : Char → Bool) :
    ∀ (w rest : List Char), (∀ ch ∈ w, p ch = true) →
    (∀ ch, rest.head? = some ch → p ch = false) →
    (w ++ rest).takeWhile p = w ∧ (w ++ rest).dropWhile p = rest := by
  intro w
  induction w with
  | nil =>
    intro rest _ hrest
    cases rest with
    | nil => exact ⟨rfl, rfl⟩
    | cons c t =>
      have hc : p c = false := hrest c rfl
      simp [List.takeWhile, List.dropWhile, hc]
  | cons a w ih =>
    intro rest hw hrest
    have ha : p a = true := hw a (List.mem_cons_self a w)
    have ⟨ht, hd⟩ := ih rest (fun ch hch => hw ch (List.mem_cons_of_mem a hch))
      hrest
    simp only [List.cons_append, List.takeWhile, List.dropWhile, ha]
    exact ⟨congrArg _ ht, hd⟩

theorem head_cons_not_word (c : Char) (t : List Char)
    (h : isWordChar c = false) :
    ∀ ch, (c :: t).head? = some ch → isWordChar ch = false := by
  intro ch hch
  have : c = ch := by injection hch
  exact this ▸ h

/-- A nonempty run of word characters followed by a non-word character (or the
end of the string) is matched as one `\w+` token. -/
theorem findall_tokens_word_run (w rest : List Char) (hne : w ≠ [])
    (hw : ∀ ch ∈ w, isWordChar ch = true)
    (hrest : ∀ ch, rest.head? = some ch → isWordChar ch = false) :
    findall_tokens (w ++ rest) = w :: findall_tokens rest := by
  cases w with
  | nil => exact absurd rfl hne
  | cons a w =>
    have ha : isWordChar a = true := hw a (List.mem_cons_self a w)
    have ⟨ht, hd⟩ := takeWhile_run isWordChar w rest
      (fun ch hch => hw ch (List.mem_cons_of_mem a hch)) hrest
    rw [List.cons_append, findall_tokens_word a (w ++ rest) ha, ht, hd]

theorem findall_tokens_skip_char (c : Char) (rest : List Char)
    (h1 : isWordChar c = false) (h2 : c ≠ '(') :
    findall_tokens (c :: rest) = findall_tokens rest := by
  refine findall_tokens_skip c rest h1 ?_
  have hc : (c == '(') = false := beq_eq_false_iff_ne.mpr h2
  simp [matches_triple, optEq, hc]

theorem matches_triple_false_idx2 (l : List Char)
    (h : optEq l[2]? ':' = false) : matches_triple l = false := by
  by_contra hcon
  rw [Bool.not_eq_false] at hcon
  simp only [matches_triple, Bool.and_eq_true] at hcon
  exact absurd hcon.1.1.1.1.1.1.1.1.1.1.2 (by rw [h]; exact Bool.false_ne_true)

theorem matches_triple_false_idx4 (l : List Char)
    (h : optEq l[4]? ',' = false) : matches_triple l = false := by
  by_contra hcon
  rw [Bool.not_eq_false] at hcon
  simp only [matches_triple, Bool.and_eq_true] at hcon
  exact absurd hcon.1.1.1.1.1.1.1.1.2 (by rw [h]; exact Bool.false_ne_true)

theorem digit_beq_false (c d : Char) (h : c.isDigit = true)
    (hd : d.isDigit = false) : (c == d) = false := by
  refine beq_eq_false_iff_ne.mpr fun e => ?_
  rw [e] at h
  exact absurd h (hd ▸ Bool.false_ne_true)

/-- The parenthesised-triple alternative of the name pattern never matches at
the chain annotation `(` of a composed name: the separator there is `~`, and
multi-digit counts also break the single-digit pattern. -/
theorem matches_triple_chain_false (R1 R2 tail : List Char)
    (h1 : R1 ≠ []) (hd1 : ∀ c ∈ R1, c.isDigit = true)
    (h2 : R2 ≠ []) (hd2 : ∀ c ∈ R2, c.isDigit = true) :
    matches_triple ('(' :: (R1 ++ ':' :: (R2 ++ '~' :: tail))) = false := by
  cases R1 with
  | nil => exact absurd rfl h1
  | cons a R1 =>
    cases R1 with
    | cons x R1 =>
      refine matches_triple_false_idx2 _ ?_
      have hx : x.isDigit = true :=
        hd1 x (List.mem_cons_of_mem a (List.mem_cons_self x R1))
      simp only [List.cons_append, List.getElem?_cons_succ,
        List.getElem?_cons_zero, optEq]
      exact digit_beq_false x ':' hx (by decide)
    | nil =>
      cases R2 with
      | nil => exact absurd rfl h2
      | cons b R2 =>
        cases R2 with
        | cons y R2 =>
          refine matches_triple_false_idx4 _ ?_
          have hy : y.isDigit = true :=
            hd2 y (List.mem_cons_of_mem b (List.mem_cons_self y R2))
          simp only [List.cons_append, List.singleton_append, List.nil_append,
            List.getElem?_cons_succ, List.getElem?_cons_zero, optEq]
          exact digit_beq_false y ',' hy (by decide)
        | nil =>
          refine matches_triple_false_idx4 _ ?_
          simp only [List.cons_append, List.singleton_append, List.nil_append,
            List.getElem?_cons_succ, List.getElem?_cons_zero, optEq]
          decide

theorem digitChar_isDigit : ∀ m : ℕ, m < 10 →
    (Nat.digitChar m).isDigit = true := by
  decide

theorem toDigitsCore_digits (fuel : ℕ) :
    ∀ (n : ℕ) (ds : List Char), (∀ c ∈ ds, c.isDigit = true) →
    ∀ c ∈ Nat.toDigitsCore 10 fuel n ds, c.isDigit = true := by
  induction fuel with
  | zero => intro n ds hds; exact hds
  | succ fuel ih =>
    intro n ds hds
    have hd : (Nat.digitChar (n % 10)).isDigit = true :=
      digitChar_isDigit _ (Nat.mod_lt _ (by norm_num))
    have hcons : ∀ c ∈ Nat.digitChar (n % 10) :: ds, c.isDigit = true := by
      intro c hc
      rcases List.mem_cons.mp hc with h | h
      · exact h ▸ hd
      · exact hds c h
    rw [show Nat.toDigitsCore 10 (fuel + 1) n ds =
        if n / 10 = 0 then Nat.digitChar (n % 10) :: ds
        else Nat.toDigitsCore 10 fuel (n / 10) (Nat.digitChar (n % 10) :: ds)
      from rfl]
    by_cases hz : n / 10 = 0
    · simpa [hz] using hcons
    · simpa [hz] using ih (n / 10) _ hcons

theorem toDigitsCore_ne_nil (fuel : ℕ) :
    ∀ (n : ℕ) (ds : List Char), ds ≠ [] →
    Nat.toDigitsCore 10 fuel n ds ≠ [] := by
  induction fuel with
  | zero => intro n ds h; exact h
  | succ fuel ih =>
    intro n ds h
    rw [show Nat.toDigitsCore 10 (fuel + 1) n ds =
        if n / 10 = 0 then Nat.digitChar (n % 10) :: ds
        else Nat.toDigitsCore 10 fuel (n / 10) (Nat.digitChar (n % 10) :: ds)
      from rfl]
    by_cases hz : n / 10 = 0
    · simp [hz]
    · simpa [hz] using ih (n / 10) _ (by simp)

theorem nat_repr_digits (n : ℕ) :
    (Nat.repr n).data ≠ [] ∧ ∀ c ∈ (Nat.repr n).data, c.isDigit = true := by
  have e : (Nat.repr n).data = Nat.toDigits 10 n := rfl
  rw [e]
  unfold Nat.toDigits
  constructor
  · show Nat.toDigitsCore 10 (n + 1) n [] ≠ []
    rw [show Nat.toDigitsCore 10 (n + 1) n [] =
        if n / 10 = 0 then [Nat.digitChar (n % 10)]
        else Nat.toDigitsCore 10 n (n / 10) [Nat.digitChar (n % 10)]
      from rfl]
    by_cases hz : n / 10 = 0
    · simp [hz]
    · simpa [hz] using toDigitsCore_ne_nil n (n / 10) _ (by simp)
  · exact toDigitsCore_digits (n + 1) n [] (by simp)

theorem int_toString_nonneg (c : ℤ) (h : 0 ≤ c) :
    toString c = Nat.repr c.toNat := by
  obtain ⟨m, rfl⟩ := Int.eq_ofNat_of_zero_le h
  rfl

theorem digits_are_word (l : List Char) (h : ∀ c ∈ l, c.isDigit = true) :
    ∀ c ∈ l, isWordChar c = true := by
  intro c hc
  have := h c hc
  simp [isWordChar, Char.isAlphanum, Char.isAlpha, this]

theorem name_mass_attempt_none (nm : String) (emd hgd : List (String × ℚ))
    (h : dictLookup emd "C" = none ∨ dictLookup emd "H" = none ∨
      ∀ t, (parsed_name_tokens nm)[0]? = some t → dictLookup hgd t = none) :
    name_mass_attempt nm emd hgd = none := by
  unfold name_mass_attempt
  cases h0 : (parsed_name_tokens nm)[0]? with
  | none => rfl
  | some t0 =>
    cases h1 : (parsed_name_tokens nm)[1]? with
    | none => rfl
    | some t1 =>
      cases h2 : (parsed_name_tokens nm)[2]? with
      | none => rfl
      | some t2 =>
        simp only [Option.some_bind]
        rcases h with hC | hH | hG
        · simp only [hC]
          cases hg0 : dictLookup hgd t0 <;> rfl
        · simp only [hH]
          cases hg0 : dictLookup hgd t0
          · rfl
          · cases hc0 : dictLookup emd "C" <;> rfl
        · rw [hG t0 h0]
          rfl

/-! ## Claim C1 -/

/-- C1: false on the code. The `atol=True` (absolute) and `atol=False`
(relative) branches of `get_name_for_mass_pair` are byte-identical — both call
`np.isclose(reference, observed, atol=tolerance)` — so the two modes never give
different result sets, and the relative mode does not implement the
proportional test: with relative tolerance `0.001`, observed pair `(100, 100)`
and reference entry `(100.05, 100)`, the code rejects the entry even though
`|observed − reference| ≤ 0.001 × max(|observed|, |reference|)` holds. -/
theorem matcher_modes_are_identical :
    (∀ (p f : Option ℚ) (mnl : Option MassNameList) (pmtol : ℚ)
      (fmtol : Option ℚ),
      get_name_for_mass_pair p f mnl pmtol fmtol true =
        get_name_for_mass_pair p f mnl pmtol fmtol false) ∧
    get_name_for_mass_pair (some 100) (some 100)
      (some ⟨["precursor", "fragment", "lipid_name"],
             [⟨100 + 1/20, 100, "x"⟩]⟩) (1/1000) none false = .ok [] ∧
    ratAbs ((100 + 1/20 : ℚ) - 100) ≤
      (1/1000) * max (ratAbs (100 : ℚ)) (ratAbs (100 + 1/20 : ℚ)) := by
  refine ⟨fun p f mnl pmtol fmtol => ?_, by decide, by decide⟩
  cases p <;> cases f <;> cases mnl <;> rfl

/-! ## Claim C10 -/

/-- C10: false on the code. Missing precursor, fragment or table does raise
`ValueError`, but the column check demands a column literally named
`lipid_name` (while the error message and the docstring speak of `name`), so a
table carrying exactly the default triple `precursor`/`fragment`/`name` is
rejected with a column error. -/
theorem matcher_rejects_default_column_triple :
    (∀ (f : Option ℚ) (mnl : Option MassNameList) (pm : ℚ) (fmt : Option ℚ)
      (mode : Bool),
      get_name_for_mass_pair none f mnl pm fmt mode = .error .valueError) ∧
    (∀ (p : ℚ) (mnl : Option MassNameList) (pm : ℚ) (fmt : Option ℚ)
      (mode : Bool),
      get_name_for_mass_pair (some p) none mnl pm fmt mode =
        .error .valueError) ∧
    (∀ (p f : ℚ) (pm : ℚ) (fmt : Option ℚ) (mode : Bool),
      get_name_for_mass_pair (some p) (some f) none pm fmt mode =
        .error .valueError) ∧
    get_name_for_mass_pair (some 1) (some 1)
      (some ⟨["precursor", "fragment", "name"], []⟩) (3/10) none true =
      .error .valueError := by
  refine ⟨fun f mnl pm fmt mode => ?_, fun p mnl pm fmt mode => ?_,
    fun p f pm fmt mode => ?_, by decide⟩
  · cases f <;> cases mnl <;> rfl
  · cases mnl <;> rfl
  · rfl

/-! ## Claim C4 -/

/-- C4, counterexample: with both tolerances zero, an entry whose precursor
mass differs from the observed precursor by `0.0005` is still returned,
because `np.isclose` keeps its default relative tolerance `1e-5`
(`0.0005 ≤ 1e-5 × 100`). The claim's "bit-for-bit equal" behaviour is false. -/
theorem zero_tolerance_matches_nonequal_mass :
    get_name_for_mass_pair (some 100) (some 50)
      (some ⟨["precursor", "fragment", "lipid_name"],
             [⟨100 + 1/2000, 50, "x"⟩]⟩) 0 (some 0) true =
      .ok [⟨100 + 1/2000, 50, "x"⟩] := by decide

/-- C4, amended: with both tolerances zero the matcher returns exactly the
entries passing numpy's residual relative test
`|reference − observed| ≤ 1e-5 × |observed|` on both masses, not the entries
bit-for-bit equal to the observed pair. -/
theorem zero_tolerance_match_characterisation (p f : ℚ) (mnl : MassNameList)
    (h1 : "precursor" ∈ mnl.columns) (h2 : "fragment" ∈ mnl.columns)
    (h3 : "lipid_name" ∈ mnl.columns) :
    get_name_for_mass_pair (some p) (some f) (some mnl) 0 (some 0) true =
      .ok (mnl.rows.filter fun r =>
        decide (ratAbs (r.precursor - p) ≤ np_rtol_default * ratAbs p) &&
        decide (ratAbs (r.fragment - f) ≤ np_rtol_default * ratAbs f)) := by
  unfold get_name_for_mass_pair
  simp only [Option.getD]
  rw [if_neg (by push_neg; exact ⟨h1, h2, h3⟩), if_pos trivial]
  refine congrArg Except.ok (List.filter_congr fun r _ => ?_)
  simp only [np_isclose, zero_add]

/-- Witness for `zero_tolerance_match_characterisation` at a concrete table. -/
theorem zero_tolerance_match_characterisation_witness :
    get_name_for_mass_pair (some 100) (some 50)
      (some ⟨["precursor", "fragment", "lipid_name"],
             [⟨100 + 1/2000, 50, "x"⟩, ⟨101, 50, "y"⟩]⟩) 0 (some 0) true =
      .ok [⟨100 + 1/2000, 50, "x"⟩] := by
  rw [zero_tolerance_match_characterisation 100 50 _ (by decide) (by decide)
    (by decide)]
  decide

/-! ## Claim C9 -/

/-- C9: the matcher is monotonic in the tolerance applied to both masses:
whatever mode flag is passed, every reference row returned at tolerance `t1`
is also returned at tolerance `t2 > t1`. -/
theorem matcher_monotone_in_tolerance (p f : ℚ) (mnl : MassNameList)
    (t1 t2 : ℚ) (mode : Bool) (hlt : t1 < t2) (rs1 rs2 : List RefRow)
    (e1 : get_name_for_mass_pair (some p) (some f) (some mnl) t1 none mode =
      .ok rs1)
    (e2 : get_name_for_mass_pair (some p) (some f) (some mnl) t2 none mode =
      .ok rs2)
    (r : RefRow) (hr : r ∈ rs1) : r ∈ rs2 := by
  unfold get_name_for_mass_pair at e1 e2
  simp only [Option.getD] at e1 e2
  by_cases hcol : ¬ ("precursor" ∈ mnl.columns) ∨ ¬ ("fragment" ∈ mnl.columns)
      ∨ ¬ ("lipid_name" ∈ mnl.columns)
  · rw [if_pos hcol] at e1; exact absurd e1 (by simp)
  · rw [if_neg hcol] at e1 e2
    have key : ∀ (a b c : ℚ), t1 ≤ t2 → np_isclose a b c t1 = true →
        np_isclose a b c t2 = true := by
      intro a b c hle h
      unfold np_isclose at h ⊢
      rw [decide_eq_true_eq] at h
      rw [decide_eq_true_eq]
      calc ratAbs (a - b) ≤ t1 + c * ratAbs b := h
        _ ≤ t2 + c * ratAbs b := add_le_add_right hle _
    rw [ite_self] at e1 e2
    injection e1 with e1; injection e2 with e2
    subst e1; subst e2
    rw [List.mem_filter] at hr ⊢
    refine ⟨hr.1, ?_⟩
    have hb := hr.2
    rw [Bool.and_eq_true] at hb ⊢
    exact ⟨key _ _ _ (le_of_lt hlt) hb.1, key _ _ _ (le_of_lt hlt) hb.2⟩

/-- Witness for `matcher_monotone_in_tolerance` at a concrete table. -/
theorem matcher_monotone_in_tolerance_witness :
    (⟨0, 0, "a"⟩ : RefRow) ∈ [(⟨0, 0, "a"⟩ : RefRow)] :=
  matcher_monotone_in_tolerance 0 0
    ⟨["precursor", "fragment", "lipid_name"], [⟨0, 0, "a"⟩]⟩ 0 1 true
    (by decide) [⟨0, 0, "a"⟩] [⟨0, 0, "a"⟩] (by decide) (by decide)
    ⟨0, 0, "a"⟩ (by decide)

/-! ## Claim C2 -/

/-- C2: false on the code. At `natoms = 3`, `abundance = 0.0107` the function
returns Python `None` — its body has no return statement — not a mapping of
size 4.  The binomial mapping the claim describes is in fact computed (and
printed) inside the loop: the internal dictionary has exactly the four keys
`0..3`, value `(1 - 0.0107)^3` at key `0`, and its values sum exactly to 1;
but none of it is returned. -/
theorem isotope_distribution_returns_none :
    get_isotope_distribution_from_natoms (some 3) none (some (107/10000)) =
      .ok none ∧
    isotope_probabilities_dict 3 (107/10000) =
      [(0, some ((9893/10000) ^ 3)),
       (1, some (3 * (107/10000) * (9893/10000) ^ 2)),
       (2, some (3 * (107/10000) ^ 2 * (9893/10000))),
       (3, some ((107/10000) ^ 3))] ∧
    (9893/10000 : ℚ) ^ 3 + 3 * (107/10000) * (9893/10000) ^ 2 +
      3 * (107/10000) ^ 2 * (9893/10000) + (107/10000) ^ 3 = 1 := by
  exact ⟨rfl, by decide, by norm_num⟩

/-! ## Claim C7 -/

/-- C7, counterexample: `abundance = 1.5` does not raise: the source validates
only that `natoms` and `abundance` are set, so the call completes normally
(scipy quietly produces `nan` probabilities inside the loop). -/
theorem isotope_distribution_accepts_abundance_above_one :
    get_isotope_distribution_from_natoms (some 3) none (some (3/2)) =
      .ok none ∧
    isotope_probabilities_dict 3 (3/2) =
      [(0, none), (1, none), (2, none), (3, none)] := by
  exact ⟨rfl, by decide⟩

/-- C7, amended: `get_isotope_distribution_from_natoms` raises `ValueError`
exactly when `natoms` or `abundance` is unset; no domain validation is
performed, so negative `natoms` and `abundance` outside `[0, 1]` are accepted.
-/
theorem isotope_distribution_validation_characterisation
    (natoms : Option ℤ) (isotope : Option String) (abundance : Option ℚ) :
    get_isotope_distribution_from_natoms natoms isotope abundance =
      .error .valueError ↔ (natoms = none ∨ abundance = none) := by
  cases natoms <;> cases abundance <;>
    simp [get_isotope_distribution_from_natoms]

/-! ## Claim C5 -/

/-- C5, counterexample: the malformed formula `"c2H4"` does not fail — the
tokenizer silently skips `c` and `2` and the call returns the mass of `H4`. -/
theorem formula_c2H4_returns_mass :
    get_mass_from_formula (some "c2H4")
      (some [("C", 12), ("H", 100782503223/100000000000)]) =
      .ok (4 * (100782503223/100000000000)) := by decide

/-- C5, amended: `get_mass_from_formula` performs no grammar validation and
raises no parse error: characters outside the token grammar are skipped by the
`re.findall` scan, a string with no tokens yields mass `0`, and `"c2H4"`
yields the mass of the single recognised token `H4`. -/
theorem formula_no_grammar_validation :
    (∀ (fs : String) (data : List (String × ℚ)), formula_findall fs.data = [] →
      get_mass_from_formula (some fs) (some data) = .ok 0) ∧
    get_mass_from_formula (some "") (some [("C", 12), ("H", 1)]) = .ok 0 ∧
    get_mass_from_formula (some "c2H4") (some [("C", 12), ("H", 1)]) =
      .ok 4 := by
  refine ⟨fun fs data h => ?_, by decide, by decide⟩
  have e : get_mass_from_formula (some fs) (some data) =
      formula_mass_loop data (formula_findall fs.data) 0 := rfl
  rw [e, h]
  rfl

/-- Witness for `formula_no_grammar_validation`: the token-free string `"++"`
returns mass `0`. -/
theorem formula_no_grammar_validation_witness :
    get_mass_from_formula (some "++") (some []) = .ok 0 :=
  formula_no_grammar_validation.1 "++" [] (by decide)

/-! ## Claim C3 -/

/-- C3: false on the code. `get_mass_from_name` truncates the hydrogen mass
with `int(elements_mass_dict['H'])` (the carbon mass is used untruncated), so
for `"TAG|34:1|"` with head-group mass 0, `C = 12` and
`H = 1.00782503223` it returns `0 + 12·34 + 67·int(1.00782...) = 475`, strictly
below the claimed `head + 34·C + (2·34+1)·H − 2·H ≈ 475.52`. -/
theorem name_mass_truncates_hydrogen_mass :
    get_mass_from_name (some "TAG|34:1|")
      (some [("C", 12), ("H", 100782503223/100000000000)])
      (some [("TAG", 0)]) = .ok 475 ∧
    (475 : ℚ) < 0 + 12 * 34 + (2 * 34 + 1) * (100782503223/100000000000) -
      2 * 1 * (100782503223/100000000000) := by
  exact ⟨by decide, by decide⟩

/-! ## Claim C6 -/

/-- C6, counterexample: with the head group `"TAG"` absent from the head-group
table, `get_mass_from_name` raises nothing — the bare `except` swallows the
`KeyError`, prints a message and the function returns 0, a substituted default
mass. -/
theorem name_mass_missing_head_group_returns_zero :
    get_mass_from_name (some "TAG|2:0|") (some [("C", 12), ("H", 1)])
      (some []) = .ok 0 := by decide

/-- C6, amended: when the head group or a required element symbol is absent
from its table, `get_mass_from_name` catches the lookup failure, prints a
message and returns the initial mass 0 instead of raising a lookup error. -/
theorem name_mass_lookup_failure_returns_zero (nm : String)
    (emd hgd : List (String × ℚ))
    (h : dictLookup emd "C" = none ∨ dictLookup emd "H" = none ∨
      ∀ t, (parsed_name_tokens nm)[0]? = some t → dictLookup hgd t = none) :
    get_mass_from_name (some nm) (some emd) (some hgd) = .ok 0 := by
  have hnone := name_mass_attempt_none nm emd hgd h
  show (match name_mass_attempt nm emd hgd with
    | some mass => Except.ok mass
    | none => Except.ok 0) = Except.ok 0
  rw [hnone]

/-- Witness for `name_mass_lookup_failure_returns_zero`: an empty element
table (no `"C"` entry). -/
theorem name_mass_lookup_failure_returns_zero_witness :
    get_mass_from_name (some "PC|4:1|") (some []) (some [("PC", 7)]) =
      .ok 0 :=
  name_mass_lookup_failure_returns_zero "PC|4:1|" [] [("PC", 7)]
    (Or.inl (by decide))

/-! ## Claim C8 -/

/-- C8: composing a name from a head group of word characters and two chains
with non-negative components, then re-parsing it, recovers the head group at
token 0, the total carbon count `c1 + c2` at token 1 and the total double-bond
count `d1 + d2` at token 2 (tokens 3–6 are the chain components). -/
theorem compose_then_parse_recovers_totals (g : String) (c1 d1 c2 d2 : ℤ)
    (hgne : g.data ≠ []) (hgw : ∀ ch ∈ g.data, isWordChar ch = true)
    (hc1 : 0 ≤ c1) (hd1 : 0 ≤ d1) (hc2 : 0 ≤ c2) (hd2 : 0 ≤ d2) :
    ∃ nm, get_name_from_double_chains (some g) (c1, d1) (c2, d2) = .ok nm ∧
      parse_lipid_name (some nm) =
        .ok [g, toString (c1 + c2), toString (d1 + d2),
             toString c1, toString d1, toString c2, toString d2] := by
  refine ⟨_, rfl, ?_⟩
  rw [int_toString_nonneg (c1 + c2) (by omega),
    int_toString_nonneg (d1 + d2) (by omega),
    int_toString_nonneg c1 hc1, int_toString_nonneg d1 hd1,
    int_toString_nonneg c2 hc2, int_toString_nonneg d2 hd2]
  obtain ⟨hne1, hdig1⟩ := nat_repr_digits (c1 + c2).toNat
  obtain ⟨hne2, hdig2⟩ := nat_repr_digits (d1 + d2).toNat
  obtain ⟨hne3, hdig3⟩ := nat_repr_digits c1.toNat
  obtain ⟨hne4, hdig4⟩ := nat_repr_digits d1.toNat
  obtain ⟨hne5, hdig5⟩ := nat_repr_digits c2.toNat
  obtain ⟨hne6, hdig6⟩ := nat_repr_digits d2.toNat
  simp only [parse_lipid_name]
  have hdata :
      (g ++ "|" ++ Nat.repr (c1 + c2).toNat ++ ":" ++
        Nat.repr (d1 + d2).toNat ++ "|" ++ "(" ++ Nat.repr c1.toNat ++ ":" ++
        Nat.repr d1.toNat ++ "~" ++ Nat.repr c2.toNat ++ ":" ++
        Nat.repr d2.toNat ++ ")").data =
      g.data ++ '|' :: ((Nat.repr (c1 + c2).toNat).data ++
        ':' :: ((Nat.repr (d1 + d2).toNat).data ++
        '|' :: ('(' :: ((Nat.repr c1.toNat).data ++
        ':' :: ((Nat.repr d1.toNat).data ++
        '~' :: ((Nat.repr c2.toNat).data ++
        ':' :: ((Nat.repr d2.toNat).data ++ [')']))))))) := by
    have hp : ("|" : String).data = ['|'] := rfl
    have hco : (":" : String).data = [':'] := rfl
    have hpl : ("(" : String).data = ['('] := rfl
    have hpr : (")" : String).data = [')'] := rfl
    have hti : ("~" : String).data = ['~'] := rfl
    simp only [String.data_append, hp, hco, hpl, hpr, hti,
      List.append_assoc, List.singleton_append, List.cons_append,
      List.nil_append]
  rw [hdata]
  have A8 : findall_tokens [')'] = [] := by
    rw [findall_tokens_skip_char ')' [] (by decide) (by decide)]
    rfl
  have A7 : findall_tokens ((Nat.repr d2.toNat).data ++ [')']) =
      [(Nat.repr d2.toNat).data] := by
    rw [findall_tokens_word_run _ _ hne6 (digits_are_word _ hdig6)
      (head_cons_not_word ')' [] (by decide)), A8]
  have A6 : findall_tokens (':' :: ((Nat.repr d2.toNat).data ++ [')'])) =
      [(Nat.repr d2.toNat).data] := by
    rw [findall_tokens_skip_char ':' _ (by decide) (by decide), A7]
  have A5 : findall_tokens ((Nat.repr c2.toNat).data ++
      ':' :: ((Nat.repr d2.toNat).data ++ [')'])) =
      [(Nat.repr c2.toNat).data, (Nat.repr d2.toNat).data] := by
    rw [findall_tokens_word_run _ _ hne5 (digits_are_word _ hdig5)
      (head_cons_not_word ':' _ (by decide)), A6]
  have A4 : findall_tokens ('~' :: ((Nat.repr c2.toNat).data ++
      ':' :: ((Nat.repr d2.toNat).data ++ [')']))) =
      [(Nat.repr c2.toNat).data, (Nat.repr d2.toNat).data] := by
    rw [findall_tokens_skip_char '~' _ (by decide) (by decide), A5]
  have A3 : findall_tokens ((Nat.repr d1.toNat).data ++
      '~' :: ((Nat.repr c2.toNat).data ++
      ':' :: ((Nat.repr d2.toNat).data ++ [')']))) =
      [(Nat.repr d1.toNat).data, (Nat.repr c2.toNat).data,
       (Nat.repr d2.toNat).data] := by
    rw [findall_tokens_word_run _ _ hne4 (digits_are_word _ hdig4)
      (head_cons_not_word '~' _ (by decide)), A4]
  have A2 : findall_tokens (':' :: ((Nat.repr d1.toNat).data ++
      '~' :: ((Nat.repr c2.toNat).data ++
      ':' :: ((Nat.repr d2.toNat).data ++ [')'])))) =
      [(Nat.repr d1.toNat).data, (Nat.repr c2.toNat).data,
       (Nat.repr d2.toNat).data] := by
    rw [findall_tokens_skip_char ':' _ (by decide) (by decide), A3]
  have A1 : findall_tokens ((Nat.repr c1.toNat).data ++
      ':' :: ((Nat.repr d1.toNat).data ++
      '~' :: ((Nat.repr c2.toNat).data ++
      ':' :: ((Nat.repr d2.toNat).data ++ [')'])))) =
      [(Nat.repr c1.toNat).data, (Nat.repr d1.toNat).data,
       (Nat.repr c2.toNat).data, (Nat.repr d2.toNat).data] := by
    rw [findall_tokens_word_run _ _ hne3 (digits_are_word _ hdig3)
      (head_cons_not_word ':' _ (by decide)), A2]
  have A0 : findall_tokens ('(' :: ((Nat.repr c1.toNat).data ++
      ':' :: ((Nat.repr d1.toNat).data ++
      '~' :: ((Nat.repr c2.toNat).data ++
      ':' :: ((Nat.repr d2.toNat).data ++ [')']))))) =
      [(Nat.repr c1.toNat).data, (Nat.repr d1.toNat).data,
       (Nat.repr c2.toNat).data, (Nat.repr d2.toNat).data] := by
    rw [findall_tokens_skip '(' _ (by decide)
      (matches_triple_chain_false _ _ _ hne3 hdig3 hne4 hdig4), A1]
  have B4 : findall_tokens ('|' :: ('(' :: ((Nat.repr c1.toNat).data ++
      ':' :: ((Nat.repr d1.toNat).data ++
      '~' :: ((Nat.repr c2.toNat).data ++
      ':' :: ((Nat.repr d2.toNat).data ++ [')'])))))) =
      [(Nat.repr c1.toNat).data, (Nat.repr d1.toNat).data,
       (Nat.repr c2.toNat).data, (Nat.repr d2.toNat).data] := by
    rw [findall_tokens_skip_char '|' _ (by decide) (by decide), A0]
  have B3 : findall_tokens ((Nat.repr (d1 + d2).toNat).data ++
      '|' :: ('(' :: ((Nat.repr c1.toNat).data ++
      ':' :: ((Nat.repr d1.toNat).data ++
      '~' :: ((Nat.repr c2.toNat).data ++
      ':' :: ((Nat.repr d2.toNat).data ++ [')'])))))) =
      [(Nat.repr (d1 + d2).toNat).data, (Nat.repr c1.toNat).data,
       (Nat.repr d1.toNat).data, (Nat.repr c2.toNat).data,
       (Nat.repr d2.toNat).data] := by
    rw [findall_tokens_word_run _ _ hne2 (digits_are_word _ hdig2)
      (head_cons_not_word '|' _ (by decide)), B4]
  have B2 : findall_tokens (':' :: ((Nat.repr (d1 + d2).toNat).data ++
      '|' :: ('(' :: ((Nat.repr c1.toNat).data ++
      ':' :: ((Nat.repr d1.toNat).data ++
      '~' :: ((Nat.repr c2.toNat).data ++
      ':' :: ((Nat.repr d2.toNat).data ++ [')'])))))))=
      [(Nat.repr (d1 + d2).toNat).data, (Nat.repr c1.toNat).data,
       (Nat.repr d1.toNat).data, (Nat.repr c2.toNat).data,
       (Nat.repr d2.toNat).data] := by
    rw [findall_tokens_skip_char ':' _ (by decide) (by decide), B3]
  have B1 : findall_tokens ((Nat.repr (c1 + c2).toNat).data ++
      ':' :: ((Nat.repr (d1 + d2).toNat).data ++
      '|' :: ('(' :: ((Nat.repr c1.toNat).data ++
      ':' :: ((Nat.repr d1.toNat).data ++
      '~' :: ((Nat.repr c2.toNat).data ++
      ':' :: ((Nat.repr d2.toNat).data ++ [')'])))))))=
      [(Nat.repr (c1 + c2).toNat).data, (Nat.repr (d1 + d2).toNat).data,
       (Nat.repr c1.toNat).data, (Nat.repr d1.toNat).data,
       (Nat.repr c2.toNat).data, (Nat.repr d2.toNat).data] := by
    rw [findall_tokens_word_run _ _ hne1 (digits_are_word _ hdig1)
      (head_cons_not_word ':' _ (by decide)), B2]
  have B0 : findall_tokens ('|' :: ((Nat.repr (c1 + c2).toNat).data ++
      ':' :: ((Nat.repr (d1 + d2).toNat).data ++
      '|' :: ('(' :: ((Nat.repr c1.toNat).data ++
      ':' :: ((Nat.repr d1.toNat).data ++
      '~' :: ((Nat.repr c2.toNat).data ++
      ':' :: ((Nat.repr d2.toNat).data ++ [')']))))))))=
      [(Nat.repr (c1 + c2).toNat).data, (Nat.repr (d1 + d2).toNat).data,
       (Nat.repr c1.toNat).data, (Nat.repr d1.toNat).data,
       (Nat.repr c2.toNat).data, (Nat.repr d2.toNat).data] := by
    rw [findall_tokens_skip_char '|' _ (by decide) (by decide), B1]
  rw [findall_tokens_word_run _ _ hgne hgw
    (head_cons_not_word '|' _ (by decide)), B0]
  rfl

/-- Witness for `compose_then_parse_recovers_totals`: group `"TAG"`, chains
`(16, 0)` and `(18, 1)`: the composed name is `TAG|34:1|(16:0~18:1)` and its
parse recovers totals 34 carbons and 1 double bond. -/
theorem compose_then_parse_recovers_totals_witness :
    parse_lipid_name (some "TAG|34:1|(16:0~18:1)") =
      .ok ["TAG", "34", "1", "16", "0", "18", "1"] := by
  obtain ⟨nm, h1, h2⟩ := compose_then_parse_recovers_totals "TAG" 16 0 18 1
    (by decide) (by decide) (by decide) (by decide) (by decide) (by decide)
  have e : get_name_from_double_chains (some "TAG") (16, 0) (18, 1) =
      .ok "TAG|34:1|(16:0~18:1)" := by decide
  rw [e] at h1
  injection h1 with h1
  rw [h1, h2]
  decide

end Lippy
